import Mathlib

/-!
Shallow embedding of the buffer transfer subsystem of the gpgpu-rs
repository (src/primitives/buffer.rs and src/framework.rs), together with
theorems settling the spec claims about it.

The element type `T : bytemuck::Pod` is modelled by a `Pod` structure: a
byte width, a serialization to raw bytes and its inverse.  Device state is
an association list from buffer ids to byte contents plus an environment
choice of which map requests get rejected.  Every public operation of
`GpuBuffer` is translated as a function from state to result, new state and
the trace of calls it issues against the external wgpu interface (§6 of the
spec); the async functions are split at their single `.await` point into a
`_start` part (the synchronous prefix up to the map request) and a
`_finish` part (the continuation run once the map future resolved).
Rust panics are modelled as `none` / `Option`.
-/

/-- Raw bytes, each entry one byte value. -/
abbrev Bytes := List Nat

/-- Model of a `bytemuck::Pod` element type: a fixed byte width with a
reinterpretation to and from raw bytes (fixed layout, no padding). -/
structure Pod (α : Type) where
  size : Nat
  toBytes : α → Bytes
  fromBytes : Bytes → α
  length_toBytes : ∀ a, (toBytes a).length = size
  fromBytes_toBytes : ∀ a, fromBytes (toBytes a) = a

/-- Model of `bytemuck::cast_slice(data)` for a slice of Pod elements:
the concatenation of each element's bytes. -/
def castSlice (p : Pod α) (d : List α) : Bytes :=
  (d.map p.toBytes).flatten

theorem castSlice_nil (p : Pod α) : castSlice p ([] : List α) = [] := rfl

theorem castSlice_cons (p : Pod α) (a : α) (d : List α) :
    castSlice p (a :: d) = p.toBytes a ++ castSlice p d := by
  simp [castSlice]

theorem castSlice_length (p : Pod α) (d : List α) :
    (castSlice p d).length = d.length * p.size := by
  induction d with
  | nil => simp [castSlice]
  | cons a t ih =>
      rw [castSlice_cons]
      simp [p.length_toBytes, ih, Nat.succ_mul, Nat.add_comm]

/-- Model of `bytemuck::cast_slice` in the reading direction: reinterpret a
byte string as a vector of Pod elements, chunk by chunk. -/
def bytesToVec (p : Pod α) (bs : Bytes) : List α :=
  if h : 0 < p.size ∧ p.size ≤ bs.length then
    p.fromBytes (bs.take p.size) :: bytesToVec p (bs.drop p.size)
  else []
termination_by bs.length
decreasing_by
  simp only [List.length_drop]
  exact Nat.sub_lt (Nat.lt_of_lt_of_le h.1 h.2) h.1

theorem bytesToVec_nil (p : Pod α) : bytesToVec p [] = [] := by
  unfold bytesToVec
  simp
  omega

/-- Reinterpreting the serialized bytes of a slice recovers the slice
(for an element type of nonzero width). -/
theorem bytesToVec_castSlice (p : Pod α) (h : 0 < p.size) (d : List α) :
    bytesToVec p (castSlice p d) = d := by
  induction d with
  | nil => simp [castSlice, bytesToVec_nil]
  | cons a t ih =>
      rw [castSlice_cons]
      unfold bytesToVec
      have hlen : (p.toBytes a).length = p.size := p.length_toBytes a
      have hcond : 0 < p.size ∧ p.size ≤ (p.toBytes a ++ castSlice p t).length := by
        constructor
        · exact h
        · simp [hlen]
      rw [dif_pos hcond]
      have htake : (p.toBytes a ++ castSlice p t).take p.size = p.toBytes a := by
        rw [← hlen]
        exact List.take_left _ _
      have hdrop : (p.toBytes a ++ castSlice p t).drop p.size = castSlice p t := by
        rw [← hlen]
        exact List.drop_left _ _
      rw [htake, hdrop, p.fromBytes_toBytes, ih]

/-- Map mode of a wgpu map request (`wgpu::MapMode`). -/
inductive MapMode where
  | Read : MapMode
  | Write : MapMode
  deriving DecidableEq, Repr

/-- Model of `wgpu::BufferAsyncError`: the payload a rejected map request
resolves with (abstracted to a code). -/
structure BufferAsyncError where
  code : Nat
  deriving DecidableEq, Repr

/-- Modelled from the spec: `GpuResult<T>` (declared in the crate root,
which is not among the provided sources) is the result type of the
fallible transfer operations, either a value or the `MappingError`
surfaced from a rejected map request. -/
abbrev GpuResult (β : Type) := Except BufferAsyncError β

/-- One call against the external device/queue interface (§6 of the
spec).  Debug labels of command encoders are metadata and not modelled. -/
inductive Op where
  | createStorageBuffer : Nat → Nat → Op
  | createStorageBufferInit : Nat → Bytes → Op
  | createDownloadStaging : Nat → Nat → Op
  | createUploadStaging : Nat → Nat → Op
  | createEncoder : Op
  | copyBufferToBuffer : Nat → Nat → Nat → Nat → Nat → Op
  | submit : Op
  | mapAsync : Nat → MapMode → Op
  | pollNonblocking : Op
  | pollBlocking : Op
  | blockOn : Nat → Op
  | getMappedRange : Nat → Op
  | copyIntoMapped : Nat → Bytes → Op
  | queueWriteBuffer : Nat → Nat → Bytes → Op
  | unmap : Nat → Op
  deriving DecidableEq, Repr

/-- The device-side state shared through the `Framework`: fresh-id counter,
contents of every allocated buffer, and the environment's choice of which
buffer ids have their map request rejected (and with which error). -/
structure GpuState where
  nextId : Nat
  bufs : List (Nat × Bytes)
  mapFailures : List (Nat × Nat)
  deriving Repr

/-- Contents of buffer `id` (empty if unallocated). -/
def getBuf (s : GpuState) (id : Nat) : Bytes :=
  (s.bufs.lookup id).getD []

/-- Overwrite the contents of buffer `id`. -/
def setBuf (s : GpuState) (id : Nat) (bs : Bytes) : GpuState :=
  { s with bufs := (id, bs) :: s.bufs }

/-- Allocate a fresh buffer with the given initial contents. -/
def alloc (s : GpuState) (bs : Bytes) : Nat × GpuState :=
  (s.nextId, { s with nextId := s.nextId + 1, bufs := (s.nextId, bs) :: s.bufs })

/-- Outcome the environment chose for a map request on buffer `id`:
`some e` means the request resolves rejected with error `e`, `none` means
it resolves successfully once driven. -/
def mapOutcome (s : GpuState) (id : Nat) : Option Nat :=
  s.mapFailures.lookup id

/-- Effect of an executed `copy_buffer_to_buffer` command: `n` bytes of
buffer `src` at `srcOff` replace the bytes of buffer `dst` at `dstOff`. -/
def copyB2B (s : GpuState) (src srcOff dst dstOff n : Nat) : GpuState :=
  let srcBytes := getBuf s src
  let dstBytes := getBuf s dst
  setBuf s dst
    (dstBytes.take dstOff ++ (srcBytes.drop srcOff).take n
      ++ dstBytes.drop (dstOff + n))

/-- Model of the `GpuBuffer<T>` struct (declared in the crate root): the
opaque device-resident storage handle and the byte size fixed at creation.
The `fw` borrow is the threaded `GpuState`; the `PhantomData` marker is the
`Pod` argument of each operation. -/
structure GpuBuffer where
  storage : Nat
  size : Nat
  deriving DecidableEq, Repr

namespace Framework

/-- `Framework::poll` (src/framework.rs): non-blocking device poll,
`device.poll(wgpu::Maintain::Poll)`. -/
def poll (s : GpuState) : GpuState × List Op :=
  (s, [Op.pollNonblocking])

/-- `Framework::poll_blocking` (src/framework.rs): blocking device poll,
`device.poll(wgpu::Maintain::Wait)`.  buffer.rs invokes it under the name
`blocking_poll`, resolved by crate-root code outside the provided sources;
the spec describes a single blocking progress operation, so both names
denote this operation. -/
def poll_blocking (s : GpuState) : GpuState × List Op :=
  (s, [Op.pollBlocking])

/-- Modelled from the spec: `Framework::create_download_staging_buffer`
(crate root, not among the provided sources) — the Staging Buffer
Allocator creates a fresh host-visible download staging buffer of the
requested byte size, with no defined initial contents (modelled as
zeros). -/
def create_download_staging_buffer (s : GpuState) (size : Nat) :
    Nat × GpuState × List Op :=
  let (id, s1) := alloc s (List.replicate size 0)
  (id, s1, [Op.createDownloadStaging id size])

/-- Modelled from the spec: `Framework::create_upload_staging_buffer`
(crate root, not among the provided sources) — a fresh host-visible upload
staging buffer of the requested byte size. -/
def create_upload_staging_buffer (s : GpuState) (size : Nat) :
    Nat × GpuState × List Op :=
  let (id, s1) := alloc s (List.replicate size 0)
  (id, s1, [Op.createUploadStaging id size])

end Framework

/-- Rust `usize` division as it appears in `len()`: panics (`none`)
when the divisor is zero. -/
def checkedDiv (a b : Nat) : Option Nat :=
  if b = 0 then none else some (a / b)

namespace GpuBuffer

/-- `GpuBuffer::len`: `self.size / std::mem::size_of::<T>()`.  The
division is unguarded in the source, so a zero-sized `T` makes it a
division by zero (Rust panic, modelled as `none`). -/
def len (p : Pod α) (b : GpuBuffer) : Option Nat :=
  checkedDiv b.size p.size

/-- `GpuBuffer::is_empty`: `self.len() == 0` (inherits `len`'s panic). -/
def is_empty (p : Pod α) (b : GpuBuffer) : Option Bool :=
  (len p b).map (fun n => n == 0)

/-- `GpuBuffer::new`: allocates `len * size_of::<T>()` bytes of storage
(`mapped_at_creation: false`, contents undefined — modelled as zeros)
and records that byte size. -/
def new (p : Pod α) (len : Nat) (s : GpuState) :
    GpuBuffer × GpuState × List Op :=
  let size := len * p.size
  let (id, s1) := alloc s (List.replicate size 0)
  (⟨id, size⟩, s1, [Op.createStorageBuffer id size])

/-- `GpuBuffer::from_slice`: allocates storage initialized from
`bytemuck::cast_slice(data)` (`create_buffer_init`) and records
`data.len() * size_of::<T>()` as the byte size. -/
def from_slice (p : Pod α) (data : List α) (s : GpuState) :
    GpuBuffer × GpuState × List Op :=
  let bytes := castSlice p data
  let size := data.length * p.size
  let (id, s1) := alloc s bytes
  (⟨id, size⟩, s1, [Op.createStorageBufferInit id bytes])

/-- The suspended remainder of `read_async` past its `.await`: the
download staging buffer whose map future is pending. -/
structure ReadCont where
  staging : Nat
  deriving DecidableEq, Repr

/-- Synchronous prefix of `GpuBuffer::read_async`, up to and including
the read-map request on the staging buffer (the function then suspends
at `buf_future.await`): allocate a download staging buffer of
`self.size` bytes, record and submit a full-extent copy
storage → staging at offset 0, request the read mapping. -/
def read_async_start (b : GpuBuffer) (s : GpuState) :
    ReadCont × GpuState × List Op :=
  let (st, s1, t1) := Framework.create_download_staging_buffer s b.size
  let s2 := copyB2B s1 b.storage 0 st 0 b.size
  (⟨st⟩, s2,
    t1 ++ [Op.createEncoder, Op.copyBufferToBuffer b.storage 0 st 0 b.size,
           Op.submit, Op.mapAsync st MapMode.Read])

/-- Continuation of `GpuBuffer::read_async` once its map future has
resolved: a rejection is propagated immediately through `?` as the
error result; on success the mapped staging bytes are reinterpreted as a
`Vec<T>` and the staging buffer is unmapped. -/
def read_async_finish (p : Pod α) (k : ReadCont) (s : GpuState) :
    GpuResult (List α) × GpuState × List Op :=
  match mapOutcome s k.staging with
  | some e => (Except.error ⟨e⟩, s, [])
  | none =>
      let data := getBuf s k.staging
      (Except.ok (bytesToVec p data), s,
        [Op.getMappedRange k.staging, Op.unmap k.staging])

/-- `GpuBuffer::read`, the blocking read, translated from its own body in
the source (the source duplicates the async code rather than calling it):
staging allocation, full-extent copy, submit, read-map request, then one
blocking poll and a `futures::executor::block_on` of the map future, a
`?`-propagated rejection or the reinterpreted bytes. -/
def read (p : Pod α) (b : GpuBuffer) (s : GpuState) :
    GpuResult (List α) × GpuState × List Op :=
  let (st, s1, t1) := Framework.create_download_staging_buffer s b.size
  let s2 := copyB2B s1 b.storage 0 st 0 b.size
  let tpre := t1 ++ [Op.createEncoder,
    Op.copyBufferToBuffer b.storage 0 st 0 b.size,
    Op.submit, Op.mapAsync st MapMode.Read, Op.pollBlocking, Op.blockOn st]
  match mapOutcome s2 st with
  | some e => (Except.error ⟨e⟩, s2, tpre)
  | none =>
      let data := getBuf s2 st
      (Except.ok (bytesToVec p data), s2,
        tpre ++ [Op.getMappedRange st, Op.unmap st])

/-- The suspended remainder of `write_async` past its `.await`: the
buffer being written (`&mut self`, returned unchanged to the caller when
the future completes) and the caller's data bytes, copied into the mapped
region after resolution. -/
structure WriteCont where
  buf : GpuBuffer
  dataBytes : Bytes
  deriving DecidableEq, Repr

/-- Synchronous prefix of `GpuBuffer::write_async`, up to and including
the write-map request: allocate an upload staging buffer of `self.size`
bytes, record and submit a full-extent copy staging → storage, then
request a write mapping of `self.storage` — the destination buffer
itself, not the staging buffer. -/
def write_async_start (p : Pod α) (b : GpuBuffer) (data : List α)
    (s : GpuState) : WriteCont × GpuState × List Op :=
  let (st, s1, t1) := Framework.create_upload_staging_buffer s b.size
  let s2 := copyB2B s1 st 0 b.storage 0 b.size
  (⟨b, castSlice p data⟩, s2,
    t1 ++ [Op.createEncoder, Op.copyBufferToBuffer st 0 b.storage 0 b.size,
           Op.submit, Op.mapAsync b.storage MapMode.Write])

/-- Continuation of `GpuBuffer::write_async` once its map future has
resolved: a rejection is propagated through `?`; on success
`get_mapped_range_mut` exposes the destination's whole extent and
`copy_from_slice` copies the data bytes into it — panicking (`none`)
when the two lengths differ — and the destination is unmapped before
`Ok(())` is returned. -/
def write_async_finish (k : WriteCont) (s : GpuState) :
    Option (GpuResult Unit × GpuBuffer × GpuState × List Op) :=
  match mapOutcome s k.buf.storage with
  | some e => some (Except.error ⟨e⟩, k.buf, s, [])
  | none =>
      let view := getBuf s k.buf.storage
      if k.dataBytes.length = view.length then
        some (Except.ok (), k.buf, setBuf s k.buf.storage k.dataBytes,
          [Op.getMappedRange k.buf.storage,
           Op.copyIntoMapped k.buf.storage k.dataBytes,
           Op.unmap k.buf.storage])
      else none

/-- `GpuBuffer::write`, the immediate write: `queue.write_buffer` of the
data bytes into the storage at offset 0 — a wgpu validation failure
(write overrunning the buffer) is an uncaptured error, fatal to the
caller, modelled as `none` — then creation and submission of an empty
command buffer.  The returned buffer is `&mut self`, unchanged; there is
no error value in the result. -/
def write (p : Pod α) (b : GpuBuffer) (data : List α) (s : GpuState) :
    Option (GpuBuffer × GpuState × List Op) :=
  let bytes := castSlice p data
  if bytes.length ≤ b.size then
    let old := getBuf s b.storage
    some (b, setBuf s b.storage (bytes ++ old.drop bytes.length),
      [Op.queueWriteBuffer b.storage 0 bytes, Op.createEncoder, Op.submit])
  else none

end GpuBuffer

/-- Whether an interface call is one of the two progress-advancement
operations (`poll` / `poll_blocking`). -/
def isPoll : Op → Bool
  | Op.pollNonblocking => true
  | Op.pollBlocking => true
  | _ => false

/-- Whether an interface call requests an asynchronous mapping. -/
def isMapReq : Op → Bool
  | Op.mapAsync _ _ => true
  | _ => false

/-- Whether an interface call allocates a staging buffer. -/
def isStagingAlloc : Op → Bool
  | Op.createDownloadStaging _ _ => true
  | Op.createUploadStaging _ _ => true
  | _ => false

/-- The Polling Model (§5 of the spec) as a transition on the pair
(pending map requests, resolved map requests): a map request becomes
pending when issued, and pending requests resolve only when one of the
two polling operations advances device progress. -/
def stepMaps : List Nat × List Nat → Op → List Nat × List Nat
  | (pend, res), Op.mapAsync id _ => (id :: pend, res)
  | (pend, res), Op.pollNonblocking => ([], pend ++ res)
  | (pend, res), Op.pollBlocking => ([], pend ++ res)
  | pr, _ => pr

/-- Run the polling model over a trace of interface calls. -/
def runMaps (pr : List Nat × List Nat) (t : List Op) : List Nat × List Nat :=
  t.foldl stepMaps pr

/-- Over a trace containing no polling call, no pending map request ever
resolves: the resolved set is unchanged and every pending request is
still pending. -/
theorem runMaps_pollFree (t : List Op) (ht : t.all (fun o => !isPoll o))
    (pend res : List Nat) :
    (runMaps (pend, res) t).2 = res ∧ pend ⊆ (runMaps (pend, res) t).1 := by
  induction t generalizing pend res with
  | nil => exact ⟨rfl, fun _ h => h⟩
  | cons o t ih =>
      simp only [List.all_cons, Bool.and_eq_true] at ht
      have hstep : (stepMaps (pend, res) o).2 = res ∧
          pend ⊆ (stepMaps (pend, res) o).1 := by
        cases o <;> simp_all [stepMaps, isPoll, List.subset_cons_of_subset]
      obtain ⟨hres, hsub⟩ := hstep
      rcases hps : stepMaps (pend, res) o with ⟨p2, r2⟩
      rw [hps] at hres hsub
      have hrun : runMaps (pend, res) (o :: t) = runMaps (p2, r2) t := by
        simp [runMaps, hps]
      have := ih ht.2 p2 r2
      rw [hrun]
      exact ⟨this.1.trans hres, fun x hx => this.2 (hsub hx)⟩

theorem getBuf_setBuf (s : GpuState) (id : Nat) (bs : Bytes) :
    getBuf (setBuf s id bs) id = bs := by
  simp [getBuf, setBuf, List.lookup]

theorem getBuf_setBuf_ne (s : GpuState) (id id2 : Nat) (bs : Bytes)
    (h : id ≠ id2) : getBuf (setBuf s id bs) id2 = getBuf s id2 := by
  have hne : (id2 == id) = false := beq_eq_false_iff_ne.mpr (Ne.symm h)
  simp [getBuf, setBuf, List.lookup, hne]

/-- A `Pod` model of a one-byte element type such as `u8`. -/
def pod1 : Pod Nat where
  size := 1
  toBytes := fun a => [a]
  fromBytes := fun l => l.headD 0
  length_toBytes := fun _ => rfl
  fromBytes_toBytes := fun _ => rfl

/-- A `Pod` model of a four-byte element type such as `u32` (the value
is carried in the first modelled byte; widths are what matter here). -/
def pod4 : Pod Nat where
  size := 4
  toBytes := fun a => [a, 0, 0, 0]
  fromBytes := fun l => l.headD 0
  length_toBytes := fun _ => rfl
  fromBytes_toBytes := fun _ => rfl

/-- A `Pod` model of a zero-sized element type (`size_of::<T>() == 0`). -/
def pod0 : Pod Unit where
  size := 0
  toBytes := fun _ => []
  fromBytes := fun _ => ()
  length_toBytes := fun _ => rfl
  fromBytes_toBytes := fun _ => rfl

/-- An initial device state: no buffers, no map rejections. -/
def initState : GpuState := ⟨0, [], []⟩

/-- The buffers of element type `p` obtainable from the two constructors
of `GpuBuffer` (`new` and `from_slice`). -/
inductive Reachable (p : Pod α) : GpuBuffer → Prop where
  | new (len : Nat) (s : GpuState) : Reachable p (GpuBuffer.new p len s).1
  | from_slice (d : List α) (s : GpuState) :
      Reachable p (GpuBuffer.from_slice p d s).1

/-- C1: for every buffer created from a data slice `D` of POD element
type `T` (of nonzero width) via `from_slice`, a subsequent blocking
`read()` — and equally `read_async` driven to resolution — returns a
vector equal to `D`, in any environment that rejects no map request. -/
theorem C1_roundtrip (p : Pod α) (hp : 0 < p.size) (d : List α)
    (s : GpuState) (hmf : s.mapFailures = []) :
    (GpuBuffer.read p (GpuBuffer.from_slice p d s).1
      (GpuBuffer.from_slice p d s).2.1).1 = Except.ok d
    ∧ (GpuBuffer.read_async_finish p
        (GpuBuffer.read_async_start (GpuBuffer.from_slice p d s).1
          (GpuBuffer.from_slice p d s).2.1).1
        (GpuBuffer.read_async_start (GpuBuffer.from_slice p d s).1
          (GpuBuffer.from_slice p d s).2.1).2.1).1 = Except.ok d := by
  have hlen := castSlice_length p d
  have hne : s.nextId ≠ s.nextId + 1 := Nat.ne_of_lt (Nat.lt_succ_self _)
  have hbe : (s.nextId == s.nextId + 1) = false := by simp
  constructor
  · simp [GpuBuffer.read, GpuBuffer.from_slice,
      Framework.create_download_staging_buffer, alloc, copyB2B, getBuf,
      setBuf, mapOutcome, hmf, List.lookup, hne, Nat.succ_ne_self]
    simp [hbe]
    rw [← hlen, List.take_length, bytesToVec_castSlice p hp]
  · simp [GpuBuffer.read_async_start, GpuBuffer.read_async_finish,
      GpuBuffer.from_slice, Framework.create_download_staging_buffer, alloc,
      copyB2B, getBuf, setBuf, mapOutcome, hmf, List.lookup, hne,
      Nat.succ_ne_self]
    simp [hbe]
    rw [← hlen, List.take_length, bytesToVec_castSlice p hp]

theorem C1_roundtrip_witness :
    0 < pod1.size
    ∧ (GpuBuffer.read pod1 (GpuBuffer.from_slice pod1 [1, 2, 3] initState).1
        (GpuBuffer.from_slice pod1 [1, 2, 3] initState).2.1).1
      = Except.ok [1, 2, 3] :=
  ⟨by decide, (C1_roundtrip pod1 (by decide) [1, 2, 3] initState rfl).1⟩

/-- C2: every buffer created by `new` or `from_slice` (element width
nonzero) satisfies `size() == len() * sizeof(T)` and
`is_empty() == (len() == 0)`, and no operation changes the size after
creation: `read`/`read_async` take the buffer by shared borrow, and the
buffer handed back by `write`, `write_async_start` and
`write_async_finish` (the `&mut self` borrow) is the input buffer itself,
size included. -/
theorem C2_size_invariant (p : Pod α) (b : GpuBuffer) (hb : Reachable p b)
    (hp : 0 < p.size) :
    (∃ n, GpuBuffer.len p b = some n ∧ b.size = n * p.size
      ∧ GpuBuffer.is_empty p b = some (n == 0))
    ∧ (∀ (d : List α) (s : GpuState) r, GpuBuffer.write p b d s = some r →
        r.1 = b ∧ r.1.size = b.size)
    ∧ (∀ (d : List α) (s : GpuState),
        (GpuBuffer.write_async_start p b d s).1.buf = b
        ∧ (GpuBuffer.write_async_start p b d s).1.buf.size = b.size)
    ∧ (∀ (k : GpuBuffer.WriteCont) (s : GpuState) r,
        GpuBuffer.write_async_finish k s = some r → r.2.1 = k.buf) := by
  refine ⟨?_, ?_, ?_, ?_⟩
  · cases hb with
    | new len s =>
        refine ⟨len, ?_, ?_, ?_⟩ <;>
          simp [GpuBuffer.new, GpuBuffer.len, GpuBuffer.is_empty, checkedDiv,
            alloc, Nat.pos_iff_ne_zero.mp hp,
            Nat.mul_div_cancel len hp]
    | from_slice d s =>
        refine ⟨d.length, ?_, ?_, ?_⟩ <;>
          simp [GpuBuffer.from_slice, GpuBuffer.len, GpuBuffer.is_empty,
            checkedDiv, alloc, Nat.pos_iff_ne_zero.mp hp,
            Nat.mul_div_cancel d.length hp]
  · intro d s r hr
    unfold GpuBuffer.write at hr
    by_cases hc : (castSlice p d).length ≤ b.size
    · simp [hc] at hr
      exact ⟨hr ▸ rfl, hr ▸ rfl⟩
    · simp [hc] at hr
  · intro d s
    exact ⟨rfl, rfl⟩
  · intro k s r hr
    unfold GpuBuffer.write_async_finish at hr
    rcases hm : mapOutcome s k.buf.storage with _ | e
    · rw [hm] at hr
      by_cases hc : k.dataBytes.length = (getBuf s k.buf.storage).length
      · simp [hc] at hr
        exact hr ▸ rfl
      · simp [hc] at hr
    · rw [hm] at hr
      simp at hr
      exact hr ▸ rfl

theorem C2_size_invariant_witness :
    0 < pod1.size
    ∧ (∃ n, GpuBuffer.len pod1 (GpuBuffer.new pod1 3 initState).1 = some n
        ∧ (GpuBuffer.new pod1 3 initState).1.size = n * pod1.size
        ∧ GpuBuffer.is_empty pod1 (GpuBuffer.new pod1 3 initState).1
          = some (n == 0)) :=
  ⟨by decide,
    (C2_size_invariant pod1 (GpuBuffer.new pod1 3 initState).1
      (Reachable.new 3 initState) (by decide)).1⟩

/-- C9: a buffer created with length 0 (and a nonzero element width) has
byte size 0, `is_empty()` returns true, and the blocking `read()` returns
`Ok` with the empty vector (in an environment rejecting no map
request). -/
theorem C9_empty_buffer (p : Pod α) (hp : 0 < p.size) (s : GpuState)
    (hmf : s.mapFailures = []) :
    (GpuBuffer.new p 0 s).1.size = 0
    ∧ GpuBuffer.is_empty p (GpuBuffer.new p 0 s).1 = some true
    ∧ (GpuBuffer.read p (GpuBuffer.new p 0 s).1
        (GpuBuffer.new p 0 s).2.1).1 = Except.ok ([] : List α) := by
  refine ⟨by simp [GpuBuffer.new, alloc], ?_, ?_⟩
  · simp [GpuBuffer.new, GpuBuffer.is_empty, GpuBuffer.len, checkedDiv,
      alloc, Nat.pos_iff_ne_zero.mp hp]
  · simp [GpuBuffer.read, GpuBuffer.new,
      Framework.create_download_staging_buffer, alloc, copyB2B, getBuf,
      setBuf, mapOutcome, hmf, List.lookup, bytesToVec_nil]

theorem C9_empty_buffer_witness :
    0 < pod1.size
    ∧ ((GpuBuffer.new pod1 0 initState).1.size = 0
      ∧ GpuBuffer.is_empty pod1 (GpuBuffer.new pod1 0 initState).1 = some true
      ∧ (GpuBuffer.read pod1 (GpuBuffer.new pod1 0 initState).1
          (GpuBuffer.new pod1 0 initState).2.1).1 = Except.ok ([] : List Nat)) :=
  ⟨by decide, C9_empty_buffer pod1 (by decide) initState rfl⟩

/-- C10: `len()` divides the byte size by `size_of::<T>()` with no guard,
so for a zero-sized element type the division is a division by zero —
a panic, not a value — and `is_empty()` inherits it; for every element
type of nonzero width both return values. -/
theorem C10_len_division_by_zero (p : Pod α) (b : GpuBuffer) :
    (p.size = 0 → GpuBuffer.len p b = none ∧ GpuBuffer.is_empty p b = none)
    ∧ (0 < p.size → ∃ n, GpuBuffer.len p b = some n
        ∧ GpuBuffer.is_empty p b = some (n == 0)) := by
  constructor
  · intro h
    simp [GpuBuffer.len, GpuBuffer.is_empty, checkedDiv, h]
  · intro h
    refine ⟨b.size / p.size, ?_, ?_⟩ <;>
      simp [GpuBuffer.len, GpuBuffer.is_empty, checkedDiv,
        Nat.pos_iff_ne_zero.mp h]

theorem C10_len_division_by_zero_witness :
    (GpuBuffer.len pod0 ⟨0, 7⟩ = none ∧ GpuBuffer.is_empty pod0 ⟨0, 7⟩ = none)
    ∧ (∃ n, GpuBuffer.len pod1 ⟨0, 7⟩ = some n
        ∧ GpuBuffer.is_empty pod1 ⟨0, 7⟩ = some (n == 0)) :=
  ⟨(C10_len_division_by_zero pod0 ⟨0, 7⟩).1 rfl,
    (C10_len_division_by_zero pod1 ⟨0, 7⟩).2 (by decide)⟩

/-- C3 counterexample: an 8-byte buffer (`from_slice` of two four-byte
elements) and a one-element slice of 4 bytes — the byte lengths differ,
yet `write` does not fail in any way: it returns normally, and the
buffer now holds the 4 new bytes followed by the untouched tail, a
silent partial write. -/
theorem C3_counterexample :
    (castSlice pod4 [5]).length
      ≠ (GpuBuffer.from_slice pod4 [9, 9] initState).1.size
    ∧ (∃ r, GpuBuffer.write pod4 (GpuBuffer.from_slice pod4 [9, 9] initState).1
        [5] (GpuBuffer.from_slice pod4 [9, 9] initState).2.1 = some r
        ∧ getBuf r.2.1 (GpuBuffer.from_slice pod4 [9, 9] initState).1.storage
          = [5, 0, 0, 0, 9, 0, 0, 0]) :=
  ⟨by decide, ⟨_, rfl, by decide⟩⟩

/-- C3 as amended: `write_async` fails (the `copy_from_slice` contract
check panics) on every byte-length mismatch; `write` fails (fatal wgpu
validation error) exactly when the data's byte length exceeds the
buffer's byte size, while a strictly smaller slice is accepted silently
as a partial write of the buffer's prefix at offset 0. -/
theorem C3_amended_mismatch (p : Pod α) (b : GpuBuffer) (d : List α)
    (s : GpuState) (hid : b.storage ≠ s.nextId)
    (hwf : (getBuf s b.storage).length = b.size)
    (hmf : s.mapFailures.lookup b.storage = none) :
    ((castSlice p d).length ≠ b.size →
      GpuBuffer.write_async_finish (GpuBuffer.write_async_start p b d s).1
        (GpuBuffer.write_async_start p b d s).2.1 = none)
    ∧ (b.size < (castSlice p d).length → GpuBuffer.write p b d s = none)
    ∧ ((castSlice p d).length ≤ b.size → ∃ r, GpuBuffer.write p b d s = some r
        ∧ getBuf r.2.1 b.storage
          = castSlice p d
            ++ (getBuf s b.storage).drop (castSlice p d).length) := by
  refine ⟨?_, ?_, ?_⟩
  · intro hne
    have hbe : (s.nextId == b.storage) = false :=
      beq_eq_false_iff_ne.mpr (Ne.symm hid)
    have hbe2 : (b.storage == s.nextId) = false := beq_eq_false_iff_ne.mpr hid
    unfold GpuBuffer.write_async_finish GpuBuffer.write_async_start
      Framework.create_upload_staging_buffer
    simp [alloc, copyB2B, getBuf, setBuf, mapOutcome, List.lookup, hbe, hbe2,
      hmf]
    simp [getBuf] at hwf
    omega
  · intro hgt
    simp [GpuBuffer.write, Nat.not_le.mpr hgt]
  · intro hle
    refine ⟨(b, setBuf s b.storage
        (castSlice p d ++ (getBuf s b.storage).drop (castSlice p d).length),
        [Op.queueWriteBuffer b.storage 0 (castSlice p d), Op.createEncoder,
         Op.submit]), ?_, ?_⟩
    · simp [GpuBuffer.write, hle]
    · simp [getBuf_setBuf]

theorem C3_amended_mismatch_witness :
    (GpuBuffer.write_async_finish
        (GpuBuffer.write_async_start pod4
          (GpuBuffer.from_slice pod4 [9, 9] initState).1 [5]
          (GpuBuffer.from_slice pod4 [9, 9] initState).2.1).1
        (GpuBuffer.write_async_start pod4
          (GpuBuffer.from_slice pod4 [9, 9] initState).1 [5]
          (GpuBuffer.from_slice pod4 [9, 9] initState).2.1).2.1 = none)
    ∧ (∃ r, GpuBuffer.write pod4 (GpuBuffer.from_slice pod4 [9, 9] initState).1
        [5] (GpuBuffer.from_slice pod4 [9, 9] initState).2.1 = some r
        ∧ getBuf r.2.1 (GpuBuffer.from_slice pod4 [9, 9] initState).1.storage
          = castSlice pod4 [5]
            ++ (getBuf (GpuBuffer.from_slice pod4 [9, 9] initState).2.1
                (GpuBuffer.from_slice pod4 [9, 9] initState).1.storage).drop
              (castSlice pod4 [5]).length) :=
  ⟨(C3_amended_mismatch pod4 (GpuBuffer.from_slice pod4 [9, 9] initState).1
      [5] (GpuBuffer.from_slice pod4 [9, 9] initState).2.1 (by decide)
      (by decide) rfl).1 (by decide),
    (C3_amended_mismatch pod4 (GpuBuffer.from_slice pod4 [9, 9] initState).1
      [5] (GpuBuffer.from_slice pod4 [9, 9] initState).2.1 (by decide)
      (by decide) rfl).2.2 (by decide)⟩

/-- C4: the blocking `read` performs the same sequence of interface calls
as `read_async` through the map request (its trace's first five calls are
exactly the async synchronous prefix), then issues the blocking poll
exactly once (the only polling call in its trace) and blocks on the map
future; it always returns a fully resolved result — the function is
total, no external polling enters — and its result, final state and
remaining calls coincide with the async path driven to resolution. -/
theorem C4_blocking_refines_async (p : Pod α) (b : GpuBuffer)
    (s : GpuState) :
    GpuBuffer.read p b s
      = ((GpuBuffer.read_async_finish p (GpuBuffer.read_async_start b s).1
            (Framework.poll_blocking (GpuBuffer.read_async_start b s).2.1).1).1,
         (GpuBuffer.read_async_finish p (GpuBuffer.read_async_start b s).1
            (Framework.poll_blocking (GpuBuffer.read_async_start b s).2.1).1).2.1,
         (GpuBuffer.read_async_start b s).2.2
           ++ (Framework.poll_blocking (GpuBuffer.read_async_start b s).2.1).2
           ++ [Op.blockOn (GpuBuffer.read_async_start b s).1.staging]
           ++ (GpuBuffer.read_async_finish p (GpuBuffer.read_async_start b s).1
                (Framework.poll_blocking
                  (GpuBuffer.read_async_start b s).2.1).1).2.2)
    ∧ (GpuBuffer.read p b s).2.2.take 5 = (GpuBuffer.read_async_start b s).2.2
    ∧ (GpuBuffer.read p b s).2.2.filter isPoll = [Op.pollBlocking] := by
  rcases hm : s.mapFailures.lookup s.nextId with _ | e <;>
    refine ⟨?_, ?_, ?_⟩ <;>
      simp [GpuBuffer.read, GpuBuffer.read_async_start,
        GpuBuffer.read_async_finish, Framework.poll_blocking,
        Framework.create_download_staging_buffer, alloc, copyB2B, setBuf,
        mapOutcome, hm, isPoll]

/-- C5: the driven `read_async` resolves to an error exactly when the
environment rejects its map request, and the rejection payload is passed
through unchanged as the `MappingError`; on a successful resolution the
result is `Ok`.  The full trace holds exactly one map request — there is
no internal retry — and the blocking `read` surfaces the identical
result. -/
theorem C5_error_propagation (p : Pod α) (b : GpuBuffer) (s : GpuState) :
    (∀ e : BufferAsyncError,
      (GpuBuffer.read_async_finish p (GpuBuffer.read_async_start b s).1
        (GpuBuffer.read_async_start b s).2.1).1 = Except.error e
      ↔ mapOutcome (GpuBuffer.read_async_start b s).2.1
          (GpuBuffer.read_async_start b s).1.staging = some e.code)
    ∧ (mapOutcome (GpuBuffer.read_async_start b s).2.1
          (GpuBuffer.read_async_start b s).1.staging = none →
        ∃ v, (GpuBuffer.read_async_finish p (GpuBuffer.read_async_start b s).1
          (GpuBuffer.read_async_start b s).2.1).1 = Except.ok v)
    ∧ ((GpuBuffer.read_async_start b s).2.2
        ++ (GpuBuffer.read_async_finish p (GpuBuffer.read_async_start b s).1
            (GpuBuffer.read_async_start b s).2.1).2.2).filter isMapReq
      = [Op.mapAsync (GpuBuffer.read_async_start b s).1.staging MapMode.Read]
    ∧ (GpuBuffer.read p b s).1
      = (GpuBuffer.read_async_finish p (GpuBuffer.read_async_start b s).1
          (GpuBuffer.read_async_start b s).2.1).1 := by
  rcases hm : s.mapFailures.lookup s.nextId with _ | e <;>
    refine ⟨?_, ?_, ?_, ?_⟩ <;>
      simp [GpuBuffer.read, GpuBuffer.read_async_start,
        GpuBuffer.read_async_finish, Framework.create_download_staging_buffer,
        alloc, copyB2B, setBuf, mapOutcome, hm, isMapReq]
  intro a
  constructor
  · intro ha
    rw [← ha]
  · intro ha
    cases a
    simp at ha
    rw [ha]

theorem C5_error_propagation_witness :
    (GpuBuffer.read_async_finish pod1
      (GpuBuffer.read_async_start ⟨0, 2⟩ ⟨1, [(0, [7, 8])], [(1, 42)]⟩).1
      (GpuBuffer.read_async_start ⟨0, 2⟩ ⟨1, [(0, [7, 8])], [(1, 42)]⟩).2.1).1
      = Except.error ⟨42⟩ :=
  ((C5_error_propagation pod1 ⟨0, 2⟩ ⟨1, [(0, [7, 8])], [(1, 42)]⟩).1
    ⟨42⟩).mpr (by simp [GpuBuffer.read_async_start,
      Framework.create_download_staging_buffer, alloc, copyB2B, setBuf,
      mapOutcome, List.lookup])

/-- C6: neither `read_async` nor `write_async` issues any polling call —
not in the synchronous prefix up to the map request and not in the
continuation after resolution — and consequently, under the polling
model, starting from no pending requests the map request each one issues
stays pending and unresolved across the whole start trace followed by
any continuation trace that contains no polling call: the future remains
pending indefinitely when nobody polls. -/
theorem C6_async_never_polls (p : Pod α) (b : GpuBuffer) (d : List α)
    (s : GpuState) (t : List Op) (ht : t.all (fun o => !isPoll o)) :
    ((GpuBuffer.read_async_start b s).2.2.all (fun o => !isPoll o)
      ∧ (GpuBuffer.read_async_finish p (GpuBuffer.read_async_start b s).1
          (GpuBuffer.read_async_start b s).2.1).2.2.all (fun o => !isPoll o))
    ∧ ((GpuBuffer.write_async_start p b d s).2.2.all (fun o => !isPoll o)
      ∧ ∀ r, GpuBuffer.write_async_finish (GpuBuffer.write_async_start p b d s).1
          (GpuBuffer.write_async_start p b d s).2.1 = some r →
            r.2.2.2.all (fun o => !isPoll o))
    ∧ ((GpuBuffer.read_async_start b s).1.staging
        ∈ (runMaps (runMaps ([], []) (GpuBuffer.read_async_start b s).2.2) t).1
      ∧ (runMaps (runMaps ([], []) (GpuBuffer.read_async_start b s).2.2) t).2
        = [])
    ∧ (b.storage
        ∈ (runMaps (runMaps ([], []) (GpuBuffer.write_async_start p b d s).2.2)
            t).1
      ∧ (runMaps (runMaps ([], []) (GpuBuffer.write_async_start p b d s).2.2)
          t).2 = []) := by
  have hread : runMaps ([], []) (GpuBuffer.read_async_start b s).2.2
      = ([(GpuBuffer.read_async_start b s).1.staging], []) := by
    simp [GpuBuffer.read_async_start, Framework.create_download_staging_buffer,
      alloc, runMaps, stepMaps]
  have hwrite : runMaps ([], []) (GpuBuffer.write_async_start p b d s).2.2
      = ([b.storage], []) := by
    simp [GpuBuffer.write_async_start, Framework.create_upload_staging_buffer,
      alloc, runMaps, stepMaps]
  refine ⟨⟨?_, ?_⟩, ⟨?_, ?_⟩, ⟨?_, ?_⟩, ⟨?_, ?_⟩⟩
  · simp [GpuBuffer.read_async_start, Framework.create_download_staging_buffer,
      alloc, isPoll]
  · rcases hm : mapOutcome (GpuBuffer.read_async_start b s).2.1
        (GpuBuffer.read_async_start b s).1.staging with _ | e <;>
      simp [GpuBuffer.read_async_finish, hm, isPoll]
  · simp [GpuBuffer.write_async_start, Framework.create_upload_staging_buffer,
      alloc, isPoll]
  · intro r hr
    unfold GpuBuffer.write_async_finish at hr
    rcases hm : mapOutcome (GpuBuffer.write_async_start p b d s).2.1
        (GpuBuffer.write_async_start p b d s).1.buf.storage with _ | e
    · rw [hm] at hr
      by_cases hc : (GpuBuffer.write_async_start p b d s).1.dataBytes.length
          = (getBuf (GpuBuffer.write_async_start p b d s).2.1
              (GpuBuffer.write_async_start p b d s).1.buf.storage).length
      · simp [hc] at hr
        simp [← hr, isPoll]
      · simp [hc] at hr
    · rw [hm] at hr
      simp at hr
      simp [← hr, isPoll]
  · rw [hread]
    exact (runMaps_pollFree t ht _ []).2 (by simp)
  · rw [hread]
    exact (runMaps_pollFree t ht _ []).1
  · rw [hwrite]
    exact (runMaps_pollFree t ht _ []).2 (by simp)
  · rw [hwrite]
    exact (runMaps_pollFree t ht _ []).1

theorem C6_async_never_polls_witness :
    ([Op.createEncoder, Op.submit].all (fun o => !isPoll o))
    ∧ ((GpuBuffer.read_async_start ⟨0, 2⟩ initState).1.staging
        ∈ (runMaps (runMaps ([], [])
            (GpuBuffer.read_async_start ⟨0, 2⟩ initState).2.2)
          [Op.createEncoder, Op.submit]).1
      ∧ (runMaps (runMaps ([], [])
          (GpuBuffer.read_async_start ⟨0, 2⟩ initState).2.2)
        [Op.createEncoder, Op.submit]).2 = []) :=
  ⟨by decide,
    (C6_async_never_polls pod1 ⟨0, 2⟩ [5, 6] initState
      [Op.createEncoder, Op.submit] (by decide)).2.2.1⟩

/-- C7: in `write_async` the only map request of the synchronous prefix
targets the destination's own storage (the upload staging buffer it
allocated is a different buffer), and — when the map resolves
successfully and the data fits exactly — the continuation copies the
caller's data bytes into that mapped destination region and unmaps the
destination before returning `Ok(())`: the continuation is exactly
map-range, copy, unmap, and the destination's contents end up equal to
the data bytes. -/
theorem C7_write_async_maps_destination (p : Pod α) (b : GpuBuffer)
    (d : List α) (s : GpuState) (hid : b.storage ≠ s.nextId)
    (hwf : (getBuf s b.storage).length = b.size)
    (hmf : s.mapFailures.lookup b.storage = none)
    (hlen : (castSlice p d).length = b.size) :
    (GpuBuffer.write_async_start p b d s).2.2.filter isMapReq
      = [Op.mapAsync b.storage MapMode.Write]
    ∧ (GpuBuffer.write_async_start p b d s).2.2.filter isStagingAlloc
      = [Op.createUploadStaging s.nextId b.size]
    ∧ b.storage ≠ s.nextId
    ∧ GpuBuffer.write_async_finish (GpuBuffer.write_async_start p b d s).1
        (GpuBuffer.write_async_start p b d s).2.1
      = some (Except.ok (), b,
          setBuf (GpuBuffer.write_async_start p b d s).2.1 b.storage
            (castSlice p d),
          [Op.getMappedRange b.storage,
           Op.copyIntoMapped b.storage (castSlice p d),
           Op.unmap b.storage])
    ∧ getBuf (setBuf (GpuBuffer.write_async_start p b d s).2.1 b.storage
        (castSlice p d)) b.storage = castSlice p d := by
  have hbe : (s.nextId == b.storage) = false :=
    beq_eq_false_iff_ne.mpr (Ne.symm hid)
  have hbe2 : (b.storage == s.nextId) = false := beq_eq_false_iff_ne.mpr hid
  have hview : (getBuf (GpuBuffer.write_async_start p b d s).2.1
      b.storage).length = b.size := by
    unfold GpuBuffer.write_async_start Framework.create_upload_staging_buffer
    simp [alloc, copyB2B, getBuf, setBuf, List.lookup, hbe, hbe2]
    simp [getBuf] at hwf
    omega
  refine ⟨?_, ?_, hid, ?_, getBuf_setBuf _ _ _⟩
  · simp [GpuBuffer.write_async_start, Framework.create_upload_staging_buffer,
      alloc, isMapReq]
  · simp [GpuBuffer.write_async_start, Framework.create_upload_staging_buffer,
      alloc, isStagingAlloc]
  · have hout : mapOutcome (GpuBuffer.write_async_start p b d s).2.1
        (GpuBuffer.write_async_start p b d s).1.buf.storage = none := by
      simp [GpuBuffer.write_async_start,
        Framework.create_upload_staging_buffer, alloc, copyB2B, setBuf,
        mapOutcome, hmf]
    unfold GpuBuffer.write_async_finish
    rw [hout]
    have hcond : (GpuBuffer.write_async_start p b d s).1.dataBytes.length
        = (getBuf (GpuBuffer.write_async_start p b d s).2.1
            (GpuBuffer.write_async_start p b d s).1.buf.storage).length := by
      have : (GpuBuffer.write_async_start p b d s).1.dataBytes
          = castSlice p d := rfl
      rw [this]
      have hb : (GpuBuffer.write_async_start p b d s).1.buf = b := rfl
      rw [hb, hview, hlen]
    simp only [hcond, if_pos]
    rfl

theorem C7_write_async_maps_destination_witness :
    (GpuBuffer.write_async_start pod4
      (GpuBuffer.from_slice pod4 [9, 9] initState).1 [5, 6]
      (GpuBuffer.from_slice pod4 [9, 9] initState).2.1).2.2.filter isMapReq
      = [Op.mapAsync (GpuBuffer.from_slice pod4 [9, 9] initState).1.storage
          MapMode.Write]
    ∧ getBuf (setBuf (GpuBuffer.write_async_start pod4
        (GpuBuffer.from_slice pod4 [9, 9] initState).1 [5, 6]
        (GpuBuffer.from_slice pod4 [9, 9] initState).2.1).2.1
        (GpuBuffer.from_slice pod4 [9, 9] initState).1.storage
        (castSlice pod4 [5, 6]))
        (GpuBuffer.from_slice pod4 [9, 9] initState).1.storage
      = castSlice pod4 [5, 6] :=
  ⟨(C7_write_async_maps_destination pod4
      (GpuBuffer.from_slice pod4 [9, 9] initState).1 [5, 6]
      (GpuBuffer.from_slice pod4 [9, 9] initState).2.1 (by decide) (by decide)
      rfl (by decide)).1,
    (C7_write_async_maps_destination pod4
      (GpuBuffer.from_slice pod4 [9, 9] initState).1 [5, 6]
      (GpuBuffer.from_slice pod4 [9, 9] initState).2.1 (by decide) (by decide)
      rfl (by decide)).2.2.2.2⟩

/-- C8: whenever the data fits (the wgpu `write_buffer` contract the
caller must meet; a violation is fatal, not an error value — the Rust
signature returns `()`, and the model's success value carries no error
component), the immediate `write` returns normally, its entire interface
trace is exactly the direct queue-level write of the data bytes into the
buffer's storage at offset 0 followed by creation and submission of an
empty command buffer, and that trace allocates no staging buffer,
requests no mapping, polls nothing and blocks on nothing. -/
theorem C8_write_immediate (p : Pod α) (b : GpuBuffer) (d : List α)
    (s : GpuState) (hfits : (castSlice p d).length ≤ b.size) :
    GpuBuffer.write p b d s
      = some (b, setBuf s b.storage
          (castSlice p d ++ (getBuf s b.storage).drop (castSlice p d).length),
          [Op.queueWriteBuffer b.storage 0 (castSlice p d), Op.createEncoder,
           Op.submit])
    ∧ [Op.queueWriteBuffer b.storage 0 (castSlice p d), Op.createEncoder,
       Op.submit].all (fun o =>
        !(isStagingAlloc o || isMapReq o || isPoll o
          || (match o with | Op.blockOn _ => true | _ => false))) := by
  constructor
  · simp [GpuBuffer.write, hfits]
  · simp [isStagingAlloc, isMapReq, isPoll]

theorem C8_write_immediate_witness :
    GpuBuffer.write pod4 (GpuBuffer.from_slice pod4 [9, 9] initState).1 [5, 6]
      (GpuBuffer.from_slice pod4 [9, 9] initState).2.1
      = some ((GpuBuffer.from_slice pod4 [9, 9] initState).1,
          setBuf (GpuBuffer.from_slice pod4 [9, 9] initState).2.1
            (GpuBuffer.from_slice pod4 [9, 9] initState).1.storage
            (castSlice pod4 [5, 6]
              ++ (getBuf (GpuBuffer.from_slice pod4 [9, 9] initState).2.1
                  (GpuBuffer.from_slice pod4 [9, 9] initState).1.storage).drop
                (castSlice pod4 [5, 6]).length),
          [Op.queueWriteBuffer
            (GpuBuffer.from_slice pod4 [9, 9] initState).1.storage 0
            (castSlice pod4 [5, 6]), Op.createEncoder, Op.submit]) :=
  (C8_write_immediate pod4 (GpuBuffer.from_slice pod4 [9, 9] initState).1
    [5, 6] (GpuBuffer.from_slice pod4 [9, 9] initState).2.1 (by decide)).1
